import Mathlib

/-!
Shallow embedding of `src/main.py` (a command-line contact book) and proofs
about it.  Python `datetime` values are modelled as a calendar date plus a
seconds-within-day count; `str` values are modelled as Lean `String`, and
Python's `str.isdigit` by the exact set of code points CPython accepts
(tabulated below from the Unicode character database).  Exceptions are
modelled with `Except String`.
-/

namespace ContactBook

/-! ## Calendar arithmetic (model of Python `datetime` / `timedelta`) -/

/-- A calendar date, as held by a Python `datetime` (time-of-day kept
separately in `PyDateTime`). -/
structure Date where
  y : Nat
  m : Nat
  d : Nat
deriving DecidableEq, Repr

/-- Gregorian leap-year rule, as used by Python `datetime`. -/
def isLeap (y : Nat) : Bool :=
  y % 4 == 0 && (y % 100 != 0 || y % 400 == 0)

/-- Number of days in a month, as used by Python `datetime`. -/
def daysInMonth (y m : Nat) : Nat :=
  if m == 2 then (if isLeap y then 29 else 28)
  else if m == 4 || m == 6 || m == 9 || m == 11 then 30
  else 31

/-- Whether `datetime(y, m, d)` (or `.replace`) succeeds: year in
`MINYEAR..MAXYEAR`, month in `1..12`, day in range for the month. -/
def isValidDate (y m d : Nat) : Bool :=
  1 ≤ y && y ≤ 9999 && 1 ≤ m && m ≤ 12 && 1 ≤ d && d ≤ daysInMonth y m

/-- Days since the epoch 1970-01-01 of a proleptic-Gregorian date
(standard days-from-civil computation); order-isomorphic to Python
`datetime` ordering on valid dates, used for comparison, subtraction and
weekday. -/
def daysFromCivil (dt : Date) : Int :=
  let y : Int := if dt.m ≤ 2 then (dt.y : Int) - 1 else (dt.y : Int)
  let era : Int := Int.fdiv y 400
  let yoe : Int := y - era * 400
  let mp : Int := if 2 < dt.m then (dt.m : Int) - 3 else (dt.m : Int) + 9
  let doy : Int := (153 * mp + 2) / 5 + (dt.d : Int) - 1
  let doe : Int := yoe * 365 + yoe / 4 - yoe / 100 + doy
  era * 146097 + doe - 719468

/-- Python `datetime.weekday()`: Monday = 0 .. Sunday = 6
(1970-01-01 was a Thursday, weekday 3). -/
def weekday (dt : Date) : Int :=
  (daysFromCivil dt + 3).emod 7

/-- The next calendar day; `dt + timedelta(days=1)` on a midnight
`datetime`. -/
def nextDay (dt : Date) : Date :=
  if dt.d < daysInMonth dt.y dt.m then ⟨dt.y, dt.m, dt.d + 1⟩
  else if dt.m < 12 then ⟨dt.y, dt.m + 1, 1⟩
  else ⟨dt.y + 1, 1, 1⟩

/-- A Python `datetime`: calendar date plus time of day.  `sec` is the
number of seconds elapsed since midnight (sub-second precision is
irrelevant here: every computation below depends only on whether the time
of day is zero). -/
structure PyDateTime where
  date : Date
  sec : Nat
deriving DecidableEq, Repr

/-- `d < now` on Python datetimes, where `d` is a midnight datetime
(as produced by `strptime`/`replace`): lexicographic on (date, time). -/
def dtLtNow (d : Date) (now : PyDateTime) : Bool :=
  daysFromCivil d < daysFromCivil now.date ||
    (daysFromCivil d == daysFromCivil now.date && now.sec != 0)

/-- Python `(target - now).days` where `target` is a midnight datetime:
`timedelta` normalizes with floor division of the total seconds by
86400. -/
def timedeltaDays (target : Date) (now : PyDateTime) : Int :=
  Int.fdiv ((daysFromCivil target - daysFromCivil now.date) * 86400 - (now.sec : Int)) 86400

/-- Decidable equality for modelled exception results. -/
instance instDecEqExcept {ε α : Type} [DecidableEq ε] [DecidableEq α] :
    DecidableEq (Except ε α) := fun x y =>
  match x, y with
  | .ok a, .ok b =>
    if h : a = b then .isTrue (by rw [h])
    else .isFalse (fun hh => by cases hh; exact h rfl)
  | .error a, .error b =>
    if h : a = b then .isTrue (by rw [h])
    else .isFalse (fun hh => by cases hh; exact h rfl)
  | .ok _, .error _ => .isFalse (fun hh => by cases hh)
  | .error _, .ok _ => .isFalse (fun hh => by cases hh)

/-! ## String helpers -/

/-- The code-point ranges (inclusive) of the 788 characters for which
CPython's `str.isdigit` is true of the one-character string: the
characters with Unicode `Numeric_Type` `Decimal` or `Digit` — ASCII
`0`-`9`, the superscripts, the decimal digits of the other scripts
(Arabic-Indic, Devanagari, fullwidth, mathematical, …) and the
digit-valued symbols such as circled digits — extracted from the Unicode
character database (CPython 3.11). -/
def isdigitRanges : List (Nat × Nat) :=
  [(48, 57), (178, 179), (185, 185), (1632, 1641), (1776, 1785), (1984, 1993),
   (2406, 2415), (2534, 2543), (2662, 2671), (2790, 2799), (2918, 2927),
   (3046, 3055), (3174, 3183), (3302, 3311), (3430, 3439), (3558, 3567),
   (3664, 3673), (3792, 3801), (3872, 3881), (4160, 4169), (4240, 4249),
   (4969, 4977), (6112, 6121), (6160, 6169), (6470, 6479), (6608, 6618),
   (6784, 6793), (6800, 6809), (6992, 7001), (7088, 7097), (7232, 7241),
   (7248, 7257), (8304, 8304), (8308, 8313), (8320, 8329), (9312, 9320),
   (9332, 9340), (9352, 9360), (9450, 9450), (9461, 9469), (9471, 9471),
   (10102, 10110), (10112, 10120), (10122, 10130), (42528, 42537),
   (43216, 43225), (43264, 43273), (43472, 43481), (43504, 43513),
   (43600, 43609), (44016, 44025), (65296, 65305), (66720, 66729),
   (68160, 68163), (68912, 68921), (69216, 69224), (69714, 69722),
   (69734, 69743), (69872, 69881), (69942, 69951), (70096, 70105),
   (70384, 70393), (70736, 70745), (70864, 70873), (71248, 71257),
   (71360, 71369), (71472, 71481), (71904, 71913), (72016, 72025),
   (72784, 72793), (73040, 73049), (73120, 73129), (92768, 92777),
   (92864, 92873), (93008, 93017), (120782, 120831), (123200, 123209),
   (123632, 123641), (125264, 125273), (127232, 127242), (130032, 130041)]

/-- Python's per-character digit test: the code point lies in one of
`isdigitRanges`. -/
def pyIsdigitChar (c : Char) : Bool :=
  isdigitRanges.any (fun r => r.fst ≤ c.toNat && c.toNat ≤ r.snd)

/-- Python `str.isdigit`: nonempty and every character is a digit
character. -/
def pyIsdigit (s : String) : Bool :=
  s ≠ "" && s.data.all pyIsdigitChar

/-- Split a character list at every `'.'`, like Python `str.split(".")`:
`"a.b"` gives two fields, `""` gives one empty field, `".."` gives three
empty fields. -/
def splitDots : List Char → List (List Char)
  | [] => [[]]
  | c :: rest =>
    if c = '.' then [] :: splitDots rest
    else
      match splitDots rest with
      | f :: fs => (c :: f) :: fs
      | [] => [[c]]

/-- Numeric value of a list of decimal digit characters. -/
def digitsToNat (cs : List Char) : Nat :=
  cs.foldl (fun acc c => acc * 10 + (c.toNat - 48)) 0

/-- Zero-pad the decimal rendering of `n` to `width` characters. -/
def padZeros (width : Nat) (n : Nat) : String :=
  let s := toString n
  String.mk (List.replicate (width - s.length) '0') ++ s

/-- Python `datetime.strptime(s, "%d.%m.%Y")`, returning the parsed date:
three dot-separated fields, day and month 1-2 digits, year exactly 4
digits, and the triple must form a valid calendar date.  (CPython also
accepts a space-padded day like `" 1"`, and its regex `\d` also matches
non-ASCII decimal digits — a character class distinct from the
`str.isdigit` one; every property proved below takes a parse result as a
hypothesis or uses ASCII input, so none depends on either variant.) -/
def parseDate (s : String) : Option Date :=
  match splitDots s.data with
  | [ds, ms, ys] =>
    if !ds.isEmpty && ds.length ≤ 2 && ds.all Char.isDigit &&
       !ms.isEmpty && ms.length ≤ 2 && ms.all Char.isDigit &&
       ys.length == 4 && ys.all Char.isDigit then
      let d := digitsToNat ds
      let m := digitsToNat ms
      let y := digitsToNat ys
      if isValidDate y m d then some ⟨y, m, d⟩ else none
    else none
  | _ => none

/-- Python `datetime.strftime("%d.%m.%Y")`: zero-padded day and month,
four-digit year. -/
def strftimeDMY (dt : Date) : String :=
  padZeros 2 dt.d ++ "." ++ padZeros 2 dt.m ++ "." ++ padZeros 4 dt.y

/-! ## Field validators -/

/-- `Phone.__init__`: raises `ValueError("The phone number must be a
string of 10 digits")` unless the input is a string passing `isdigit` of
length 10; otherwise stores the value unchanged.  (The `isinstance(number,
str)` clause is vacuous in this typed embedding.) -/
def phoneInit (number : String) : Except String String :=
  if !pyIsdigit number || number.length != 10 then
    .error "The phone number must be a string of 10 digits"
  else
    .ok number

/-- `Birthday.__init__`: a falsy value (None or the empty string) is
stored without validation; a nonempty string must `strptime` as
`"%d.%m.%Y"` or `ValueError("Birthday must be in format DD.MM.YYYY")` is
raised.  The stored value is the original string. -/
def birthdayInit (value : Option String) : Except String (Option String) :=
  match value with
  | none => .ok none
  | some s =>
    if s = "" then .ok (some s)
    else
      match parseDate s with
      | some _ => .ok (some s)
      | none => .error "Birthday must be in format DD.MM.YYYY"

/-! ## Record -/

/-- One contact: `name` (a `Name` field), `phones` (list of validated
phone strings, each a `Phone.value`), `birthday` (a `Birthday` field;
`none` models `Birthday(None)`). -/
structure Record where
  name : String
  phones : List String
  birthday : Option String
deriving DecidableEq, Repr

namespace Record

/-- `Record.__init__(name)`: empty phone list, `Birthday(None)`. -/
def init (name : String) : Record :=
  ⟨name, [], none⟩

/-- `Record.add_phone`: validate through `Phone`, then append. -/
def add_phone (r : Record) (number : String) : Except String Record :=
  (phoneInit number).map (fun p => { r with phones := r.phones ++ [p] })

/-- `Record.add_birthday`: replace the birthday field after `Birthday`
validation. -/
def add_birthday (r : Record) (birthday : String) : Except String Record :=
  (birthdayInit (some birthday)).map (fun b => { r with birthday := b })

/-- `Record.find_phone`: first phone whose value equals `number`, else
`None`. -/
def find_phone (r : Record) (number : String) : Option String :=
  r.phones.find? (fun p => p == number)

/-- `Record.remove_phone`: remove the first phone whose value equals
`number`; the returned flag reports whether a removal occurred. -/
def remove_phone (r : Record) (number : String) : Record × Bool :=
  match r.phones.find? (fun p => p == number) with
  | some _ => ({ r with phones := r.phones.erase number }, true)
  | none => (r, false)

/-- `Record.edit_phone`: if `old_number` is found, `add_phone(new_number)`
(which may raise on an invalid new number) then `remove_phone(old_number)`;
otherwise raise `ValueError(f"Old number {old_number} not found")`. -/
def edit_phone (r : Record) (old_number new_number : String) : Except String Record :=
  match r.find_phone old_number with
  | some _ =>
    match r.add_phone new_number with
    | .error e => .error e
    | .ok r1 => .ok (r1.remove_phone old_number).fst
  | none => .error ("Old number " ++ old_number ++ " not found")

/-- String rendering of a field value, as Python `str()` of the stored
value: `None` renders as `"None"`. -/
def fieldStr : Option String → String
  | none => "None"
  | some s => s

/-- `Record.__str__`.  The source computes
`f", birthday: {self.birthday.value}" if self.birthday else ""`, but
`self.birthday` is always a `Birthday` instance (which defines no
`__bool__`/`__len__`), hence always truthy, so the suffix is always
appended — with the text `None` when no birthday is set. -/
def render (r : Record) : String :=
  let birthday_str := ", birthday: " ++ fieldStr r.birthday
  "Contact name: " ++ r.name ++ ", phones: " ++
    String.intercalate "; " r.phones ++ birthday_str

end Record

/-! ## AddressBook -/

/-- The address book: a Python dict keyed by `record.name.value`, modelled
as a list of records in insertion order (updating an existing key keeps
its position, like a dict). -/
abbrev AddressBook := List Record

/-- `AddressBook.add_record`: `self.data[record.name.value] = record`
(dict item assignment: replace in place if the key exists, else append). -/
def add_record (book : AddressBook) (r : Record) : AddressBook :=
  if book.any (fun x => x.name == r.name) then
    book.map (fun x => if x.name == r.name then r else x)
  else
    book ++ [r]

/-- `AddressBook.find`: `self.data.get(name, None)`. -/
def find (book : AddressBook) (name : String) : Option Record :=
  book.find? (fun r => r.name == name)

/-- Replace the record stored under `name` by `f` of it (a Python
in-place mutation of the record object aliased by the dict). -/
def updateRecord (book : AddressBook) (name : String) (f : Record → Record) : AddressBook :=
  book.map (fun r => if r.name == name then f r else r)

/-- One entry of the `get_upcoming_birthdays` output:
`{"name": ..., "birthday": ...}`. -/
structure Entry where
  name : String
  birthday : String
deriving DecidableEq, Repr

/-- The body of the `get_upcoming_birthdays` loop for one record:
`.ok none` when the record contributes nothing (no birthday value, or
`strptime` fails, or the range check fails), `.ok (some e)` when it
contributes entry `e`, `.error _` when `datetime.replace` raises (the
`try` only guards `strptime`).  Mirrors the source statement by
statement. -/
def upcomingEntry (now : PyDateTime) (rec : Record) : Except String (Option Entry) :=
  match rec.birthday with
  | none => .ok none
  | some s =>
    if s = "" then .ok none
    else
      match parseDate s with
      | none => .ok none
      | some birthday_date =>
        -- this_year_birthday = birthday_date.replace(year=today.year)
        if isValidDate now.date.y birthday_date.m birthday_date.d then
          let tyb : Date := ⟨now.date.y, birthday_date.m, birthday_date.d⟩
          -- if this_year_birthday < today: replace(year=today.year + 1)
          if dtLtNow tyb now then
            if isValidDate (now.date.y + 1) birthday_date.m birthday_date.d then
              .ok (upcomingCheck now rec.name ⟨now.date.y + 1, birthday_date.m, birthday_date.d⟩)
            else .error "day is out of range for month"
          else .ok (upcomingCheck now rec.name tyb)
        else .error "day is out of range for month"
where
  /-- Weekend shift, day count and range check on the candidate date. -/
  upcomingCheck (now : PyDateTime) (name : String) (tyb : Date) : Option Entry :=
    let shifted : Date :=
      if weekday tyb == 5 then nextDay (nextDay tyb)
      else if weekday tyb == 6 then nextDay tyb
      else tyb
    let days_until_birthday := timedeltaDays shifted now
    if 0 ≤ days_until_birthday ∧ days_until_birthday ≤ 7 then
      some ⟨name, strftimeDMY shifted⟩
    else none

/-- `AddressBook.get_upcoming_birthdays`: iterate the records in book
order, accumulating entries; an uncaught `ValueError` from
`datetime.replace` aborts the whole call. -/
def get_upcoming_birthdays (now : PyDateTime) : AddressBook → Except String (List Entry)
  | [] => .ok []
  | rec :: rest =>
    match upcomingEntry now rec with
    | .error e => .error e
    | .ok none => get_upcoming_birthdays now rest
    | .ok (some e) => (get_upcoming_birthdays now rest).map (fun l => e :: l)

/-! ## Command handlers

Each handler in the source is wrapped by the `input_error` decorator,
which converts a raised `ValueError e` into the string `f"ValueError: {e}"`,
an `IndexError` into `"Please provide the correct number of arguments."`,
a `KeyError` into `"Contact not found."` and any other exception into its
own message.  The embeddings below return the post-decorator string (and
the resulting book for handlers that mutate it), inlining the decorator
at each raise site. -/

/-- Python's error message for `a, b, *rest = args` when `args` is too
short: raised as a `ValueError`, so `input_error` renders it with the
`ValueError: ` prompt. -/
def unpackAtLeast2Msg (got : Nat) : String :=
  "ValueError: not enough values to unpack (expected at least 2, got " ++
    toString got ++ ")"

/-- Python's error message for an exact `a, b, ... = args` unpacking that
receives too few values, rendered by `input_error`. -/
def unpackExactShortMsg (expected got : Nat) : String :=
  "ValueError: not enough values to unpack (expected " ++ toString expected ++
    ", got " ++ toString got ++ ")"

/-- Python's error message for an exact unpacking that receives too many
values, rendered by `input_error`. -/
def unpackExactLongMsg (expected : Nat) : String :=
  "ValueError: too many values to unpack (expected " ++ toString expected ++ ")"

/-- `add_contact(args, book)` under `input_error`.  `name, phone, *_ =
args` raises `ValueError` when `args` has fewer than two elements.  A new
`Record` is inserted into the book before `add_phone` runs, so a failing
phone validation leaves the fresh empty record behind. -/
def add_contact (args : List String) (book : AddressBook) : String × AddressBook :=
  match args with
  | name :: phone :: _ =>
    let found := find book name
    let book1 := if found.isSome then book else add_record book (Record.init name)
    let message := if found.isSome then "Contact updated." else "Contact added."
    if phone = "" then (message, book1)
    else
      match phoneInit phone with
      | .error e => ("ValueError: " ++ e, book1)
      | .ok p => (message, updateRecord book1 name (fun r => { r with phones := r.phones ++ [p] }))
  | _ => (unpackAtLeast2Msg args.length, book)

/-- `change_contact(args, book)` under `input_error`: exact 3-unpacking,
lookup (bare `KeyError` message when missing is raised with an argument,
but `input_error` replaces any `KeyError` by `"Contact not found."`),
then `edit_phone` whose `ValueError`s are rendered with the prompt. -/
def change_contact (args : List String) (book : AddressBook) : String × AddressBook :=
  match args with
  | [name, old_phone, new_phone] =>
    match find book name with
    | some r =>
      match r.edit_phone old_phone new_phone with
      | .ok r1 => ("Contact updated.", updateRecord book name (fun _ => r1))
      | .error e => ("ValueError: " ++ e, book)
    | none => ("Contact not found.", book)
  | _ =>
    if args.length < 3 then (unpackExactShortMsg 3 args.length, book)
    else (unpackExactLongMsg 3, book)

/-- `show_phone(args, book)` under `input_error`: `args[0]` raises
`IndexError` on an empty list; a missing record raises a bare `KeyError`.
Read-only, so only the message is returned. -/
def show_phone (args : List String) (book : AddressBook) : String :=
  match args with
  | [] => "Please provide the correct number of arguments."
  | name :: _ =>
    match find book name with
    | some r =>
      "Phone(s) for " ++ name ++ ": " ++ String.intercalate ", " r.phones
    | none => "Contact not found."

/-- `add_birthday(args, book)` under `input_error`: exact 2-unpacking; a
missing record raises `ValueError(f"Contact {name} not found.")`, which
the decorator renders with the `ValueError: ` prompt — not as
`"Contact not found."`. -/
def add_birthday (args : List String) (book : AddressBook) : String × AddressBook :=
  match args with
  | [name, birthday] =>
    match find book name with
    | none => ("ValueError: Contact " ++ name ++ " not found.", book)
    | some r =>
      match r.add_birthday birthday with
      | .error e => ("ValueError: " ++ e, book)
      | .ok r1 =>
        ("Birthday " ++ birthday ++ " added to contact " ++ name ++ ".",
         updateRecord book name (fun _ => r1))
  | _ =>
    if args.length < 2 then (unpackExactShortMsg 2 args.length, book)
    else (unpackExactLongMsg 2, book)

/-- `show_birthday(args, book)` under `input_error`: `args[0]` raises
`IndexError` on an empty list; a missing record (the `record.birthday`
conjunct is always truthy) raises
`ValueError(f"No birthday found for contact {name}.")`. -/
def show_birthday (args : List String) (book : AddressBook) : String :=
  match args with
  | [] => "Please provide the correct number of arguments."
  | name :: _ =>
    match find book name with
    | none => "ValueError: No birthday found for contact " ++ name ++ "."
    | some r => "Birthday of " ++ name ++ ": " ++ Record.fieldStr r.birthday

/-! ## Persistence

`save_data` pickles the whole `AddressBook`; `load_data` unpickles it (or
returns an empty book when the file is absent).

Modelled from the spec: the pickle wire format is produced by the Python
standard library, not by code in this repository, and §6 of the spec fixes
only its contract — "Format is implementation-defined (opaque blob) as
long as round-trip save/load preserves all Record fields exactly".  The
blob is therefore modelled as a token stream and `pickle.dump` /
`pickle.load` as a field-complete length-prefixed codec over it. -/

/-- One token of the serialized blob. -/
inductive Tok where
  | nat (n : Nat)
  | str (s : String)
  | flag (b : Bool)
deriving DecidableEq, Repr

/-- Serialize one record: name, phone count, phones, birthday tag and
value. -/
def dumpRecord (r : Record) : List Tok :=
  Tok.str r.name :: Tok.nat r.phones.length :: r.phones.map Tok.str ++
    (match r.birthday with
     | none => [Tok.flag false]
     | some s => [Tok.flag true, Tok.str s])

/-- `save_data` (the serialization part): record count, then each record's
fields. -/
def save_data (book : AddressBook) : List Tok :=
  Tok.nat book.length :: (book.map dumpRecord).flatten

/-- Read back `n` phone strings. -/
def loadPhones : Nat → List Tok → Option (List String × List Tok)
  | 0, ts => some ([], ts)
  | n + 1, Tok.str s :: ts =>
    (loadPhones n ts).map (fun p => (s :: p.fst, p.snd))
  | _ + 1, _ => none

/-- Read back one record. -/
def loadRecord : List Tok → Option (Record × List Tok)
  | Tok.str name :: Tok.nat k :: ts =>
    match loadPhones k ts with
    | none => none
    | some (phones, ts1) =>
      match ts1 with
      | Tok.flag false :: ts2 => some (⟨name, phones, none⟩, ts2)
      | Tok.flag true :: Tok.str s :: ts2 => some (⟨name, phones, some s⟩, ts2)
      | _ => none
  | _ => none

/-- Read back `n` records. -/
def loadRecords : Nat → List Tok → Option (AddressBook × List Tok)
  | 0, ts => some ([], ts)
  | n + 1, ts =>
    match loadRecord ts with
    | none => none
    | some (r, ts1) =>
      (loadRecords n ts1).map (fun p => (r :: p.fst, p.snd))

/-- `load_data` (the deserialization part, on a present file): rebuild the
book from the blob; any malformed blob is a failure. -/
def load_data (ts : List Tok) : Option AddressBook :=
  match ts with
  | Tok.nat n :: ts1 =>
    match loadRecords n ts1 with
    | some (book, []) => some book
    | _ => none
  | _ => none

/-! ## Spec-side description of the upcoming-birthday pipeline

These definitions follow the spec's own wording for
`get_upcoming_birthdays` ("compute this year's occurrence …; if that date
has already passed relative to now, roll to next year; if the resulting
weekday is Saturday, shift +2 days; if Sunday, shift +1 day; compute days
until that (possibly shifted) date; include if 0 <= days_until <= 7").
They are compared against the code embedding above. -/

/-- Spec wording: this year's occurrence of the birthday, rolled to next
year if already passed relative to now. -/
def specThisYearOccurrence (now : PyDateTime) (bd : Date) : Date :=
  if dtLtNow ⟨now.date.y, bd.m, bd.d⟩ now then ⟨now.date.y + 1, bd.m, bd.d⟩
  else ⟨now.date.y, bd.m, bd.d⟩

/-- Spec wording: Saturday shifts +2 days, Sunday shifts +1 day, to the
following Monday. -/
def specMondayShift (d : Date) : Date :=
  if weekday d == 5 then nextDay (nextDay d)
  else if weekday d == 6 then nextDay d
  else d

/-- Spec wording: the contribution of one record with parsed birthday
`bd`: include it exactly when the days until the possibly shifted
occurrence lie in `[0, 7]`. -/
def specUpcomingEntry (now : PyDateTime) (name : String) (bd : Date) : Option Entry :=
  let sh := specMondayShift (specThisYearOccurrence now bd)
  let du := timedeltaDays sh now
  if 0 ≤ du ∧ du ≤ 7 then some ⟨name, strftimeDMY sh⟩ else none

/-- The range-check kernel of the loop body agrees with the spec's
shift-then-check wording. -/
lemma upcomingCheck_eq_shift_check (now : PyDateTime) (name : String) (d : Date) :
    upcomingEntry.upcomingCheck now name d =
      (if 0 ≤ timedeltaDays (specMondayShift d) now ∧
          timedeltaDays (specMondayShift d) now ≤ 7
       then some ⟨name, strftimeDMY (specMondayShift d)⟩ else none) := by
  simp only [upcomingEntry.upcomingCheck, specMondayShift]

/-- Helper: for a record whose birthday parses and whose month/day are
representable in both the current and the next year, the loop body equals
the spec pipeline. -/
lemma upcomingEntry_eq_spec (now : PyDateTime) (name : String) (phones : List String)
    (s : String) (bd : Date) (hs : s ≠ "") (hp : parseDate s = some bd)
    (hv1 : isValidDate now.date.y bd.m bd.d = true)
    (hv2 : isValidDate (now.date.y + 1) bd.m bd.d = true) :
    upcomingEntry now ⟨name, phones, some s⟩ = .ok (specUpcomingEntry now name bd) := by
  simp only [upcomingEntry, hp, hv1, if_neg hs, if_true]
  cases hlt : dtLtNow ⟨now.date.y, bd.m, bd.d⟩ now with
  | false =>
    simp only [Bool.false_eq_true, if_false, upcomingCheck_eq_shift_check,
      specUpcomingEntry, specThisYearOccurrence, hlt]
  | true =>
    simp only [if_true, hv2, upcomingCheck_eq_shift_check,
      specUpcomingEntry, specThisYearOccurrence, hlt]

/-! ## Claim theorems -/

/-- C2, counterexample: with today = 2024-06-10 and one record with
birthday `15.06.1990`, the record is included but with output date
`17.06.2024`, not `15.06.2024`: June 15, 2024 is a Saturday (weekday 5),
so the code shifts it by two days before rendering. -/
theorem birthdays_june15_output_counterexample :
    get_upcoming_birthdays ⟨⟨2024, 6, 10⟩, 0⟩ [⟨"alice", [], some "15.06.1990"⟩] =
      .ok [⟨"alice", "17.06.2024"⟩]
    ∧ get_upcoming_birthdays ⟨⟨2024, 6, 10⟩, 0⟩ [⟨"alice", [], some "15.06.1990"⟩] ≠
      .ok [⟨"alice", "15.06.2024"⟩]
    ∧ weekday ⟨2024, 6, 15⟩ = 5 := by
  refine ⟨by decide, by decide, by decide⟩

/-- C2, amended: with today = 2024-06-10 and one record with birthday
`15.06.1990`, the record is included with output date `17.06.2024` (this
year's occurrence 15.06.2024 falls on a Saturday and is shifted +2 days
to Monday; the days until the shifted date are 7, inside the range). -/
theorem birthdays_june15_example :
    get_upcoming_birthdays ⟨⟨2024, 6, 10⟩, 0⟩ [⟨"alice", [], some "15.06.1990"⟩] =
      .ok [⟨"alice", "17.06.2024"⟩] := by
  decide

/-- C3, counterexample: `str.isdigit` also accepts non-ASCII Unicode
digit characters, so `Phone` construction succeeds on the string of the
ten Arabic-Indic digits — a 10-character string containing no ASCII
decimal digit (indeed no ASCII character) at all — refuting the claim
that construction succeeds only on strings of 10 ASCII decimal digits. -/
theorem phone_unicode_digits_counterexample :
    phoneInit "٠١٢٣٤٥٦٧٨٩" = .ok "٠١٢٣٤٥٦٧٨٩"
    ∧ "٠١٢٣٤٥٦٧٨٩".length = 10
    ∧ "٠١٢٣٤٥٦٧٨٩".data.all (fun c => ! c.isDigit) = true
    ∧ "٠١٢٣٤٥٦٧٨٩".data.all (fun c => 127 < c.toNat) = true := by
  refine ⟨by decide, by decide, by decide, by decide⟩

/-- C3, amended: `Phone` construction succeeds iff the input is a string
of exactly 10 Unicode digit characters (the `str.isdigit` class:
`Numeric_Type` `Decimal` or `Digit`) — every string of 10 ASCII decimal
digits qualifies, but so do some strings with non-ASCII digit
characters — and stores the input unchanged; any other string fails with
the message `The phone number must be a string of 10 digits`. -/
theorem phone_validation (p : String) :
    phoneInit p = if p.length = 10 ∧ p.data.all pyIsdigitChar then .ok p
      else .error "The phone number must be a string of 10 digits" := by
  have hlen : p = "" → p.length = 0 := by
    intro h
    rw [h]
    rfl
  simp only [phoneInit, pyIsdigit]
  by_cases h10 : p.length = 10
  · have hne : ¬p = "" := fun h => by simp [hlen h] at h10
    by_cases hall : p.data.all pyIsdigitChar
    · simp [h10, hall, hne]
    · simp [h10, hall, hne]
  · simp [h10]

/-- C5, counterexample: `add` with only a name returns the Python
unpacking `ValueError` text (rendered by the decorator with the
`ValueError: ` prompt), not the `IndexError` text the claim states. -/
theorem add_short_args_message_counterexample :
    (add_contact ["alice"] []).fst =
      "ValueError: not enough values to unpack (expected at least 2, got 1)"
    ∧ (add_contact ["alice"] []).fst ≠
      "Please provide the correct number of arguments." := by
  refine ⟨by decide, by decide⟩

/-- C5, amended: when `add` receives fewer than two arguments the tuple
unpacking raises `ValueError` and the handler returns
`ValueError: not enough values to unpack (expected at least 2, got N)`;
the message `Please provide the correct number of arguments.` is produced
only by the handlers that index into `args` (`phone`, `show-birthday`)
when `args` is empty. -/
theorem short_args_messages (book : AddressBook) (x : String) :
    (add_contact [] book).fst =
      "ValueError: not enough values to unpack (expected at least 2, got 0)"
    ∧ (add_contact [x] book).fst =
      "ValueError: not enough values to unpack (expected at least 2, got 1)"
    ∧ show_phone [] book = "Please provide the correct number of arguments."
    ∧ show_birthday [] book = "Please provide the correct number of arguments." := by
  refine ⟨?_, ?_, rfl, rfl⟩
  · change unpackAtLeast2Msg 0 = _
    decide
  · change unpackAtLeast2Msg 1 = _
    decide

/-- C6, counterexample: `add-birthday` on an absent name returns
`ValueError: Contact alice not found.` (its lookup failure is raised as a
`ValueError`, which the decorator renders with the prompt), not
`Contact not found.`. -/
theorem add_birthday_missing_contact_counterexample :
    (add_birthday ["alice", "15.06.1990"] []).fst =
      "ValueError: Contact alice not found."
    ∧ (add_birthday ["alice", "15.06.1990"] []).fst ≠ "Contact not found."
    ∧ (show_birthday ["alice"] []) ≠ "Contact not found." := by
  refine ⟨by decide, by decide, by decide⟩

/-- C6, amended: on a name absent from the book, `change` and `phone`
return `Contact not found.` (their lookup failures raise `KeyError`),
while `add-birthday` returns `ValueError: Contact {name} not found.` and
`show-birthday` returns
`ValueError: No birthday found for contact {name}.` (their lookup
failures raise `ValueError`). -/
theorem missing_contact_messages (book : AddressBook) (name old new bday : String)
    (h : find book name = none) :
    (change_contact [name, old, new] book).fst = "Contact not found."
    ∧ show_phone [name] book = "Contact not found."
    ∧ (add_birthday [name, bday] book).fst =
        "ValueError: Contact " ++ name ++ " not found."
    ∧ show_birthday [name] book =
        "ValueError: No birthday found for contact " ++ name ++ "." := by
  refine ⟨?_, ?_, ?_, ?_⟩
  · simp only [change_contact, h]
  · simp only [show_phone, h]
  · simp only [add_birthday, h]
  · simp only [show_birthday, h]

/-- C6, witness: the amended statement instantiated on the empty book and
the name `alice`. -/
theorem missing_contact_messages_witness :
    (change_contact ["alice", "1111111111", "2222222222"] []).fst = "Contact not found."
    ∧ show_phone ["alice"] [] = "Contact not found."
    ∧ (add_birthday ["alice", "15.06.1990"] []).fst =
        "ValueError: Contact " ++ "alice" ++ " not found."
    ∧ show_birthday ["alice"] [] =
        "ValueError: No birthday found for contact " ++ "alice" ++ "." :=
  missing_contact_messages [] "alice" "1111111111" "2222222222" "15.06.1990" rfl

/-- C7: `Record.__str__` always appends the birthday suffix: the guard
`if self.birthday` tests the `Birthday` object, which is always truthy,
so a record without a birthday renders with `, birthday: None` instead of
omitting the suffix. -/
theorem render_always_appends_birthday :
    Record.render ⟨"alice", ["1234567890"], none⟩ =
      "Contact name: alice, phones: 1234567890, birthday: None"
    ∧ Record.render ⟨"alice", ["1234567890"], none⟩ ≠
      "Contact name: alice, phones: 1234567890"
    ∧ Record.render ⟨"bob", ["1234567890", "0987654321"], some "15.06.1990"⟩ =
      "Contact name: bob, phones: 1234567890; 0987654321, birthday: 15.06.1990" := by
  refine ⟨by decide, by decide, by decide⟩

/-- C1: for a record whose birthday parses (and whose month/day exist in
the current and next calendar year, so that `datetime.replace` does not
raise), the loop body of `get_upcoming_birthdays` equals the spec
pipeline — this year's occurrence rolled if already passed, then the
Saturday +2 / Sunday +1 shift, then the day count against the shifted
date — and the record is included in the output exactly when that count
lies in `[0, 7]`; in particular, whenever the shifted date's count
exceeds 7 the record is excluded, whatever the unshifted date's count
was. -/
theorem upcoming_shift_before_range_check (now : PyDateTime) (name : String)
    (phones : List String) (s : String) (bd : Date) (hs : s ≠ "")
    (hp : parseDate s = some bd)
    (hv1 : isValidDate now.date.y bd.m bd.d = true)
    (hv2 : isValidDate (now.date.y + 1) bd.m bd.d = true) :
    upcomingEntry now ⟨name, phones, some s⟩ = .ok (specUpcomingEntry now name bd)
    ∧ (∀ rest : AddressBook,
        get_upcoming_birthdays now (⟨name, phones, some s⟩ :: rest) =
          match specUpcomingEntry now name bd with
          | some e => (get_upcoming_birthdays now rest).map (fun l => e :: l)
          | none => get_upcoming_birthdays now rest)
    ∧ (7 < timedeltaDays (specMondayShift (specThisYearOccurrence now bd)) now →
        upcomingEntry now ⟨name, phones, some s⟩ = .ok none) := by
  have h := upcomingEntry_eq_spec now name phones s bd hs hp hv1 hv2
  refine ⟨h, ?_, ?_⟩
  · intro rest
    rw [get_upcoming_birthdays, h]
    cases specUpcomingEntry now name bd <;> rfl
  · intro hgt
    rw [h]
    simp only [specUpcomingEntry]
    rw [if_neg]
    omega

/-- C1, witness: today = Sunday 2024-06-09 (midnight) and birthday
`15.06.1990`: the unshifted occurrence 15.06.2024 is 6 days out (in
range), but it is a Saturday, so the shifted date 17.06.2024 is 8 days
out and the record is excluded. -/
theorem upcoming_shift_before_range_check_witness :
    upcomingEntry ⟨⟨2024, 6, 9⟩, 0⟩ ⟨"alice", [], some "15.06.1990"⟩ = .ok none
    ∧ timedeltaDays ⟨2024, 6, 15⟩ ⟨⟨2024, 6, 9⟩, 0⟩ = 6
    ∧ timedeltaDays (specMondayShift (specThisYearOccurrence ⟨⟨2024, 6, 9⟩, 0⟩ ⟨1990, 6, 15⟩))
        ⟨⟨2024, 6, 9⟩, 0⟩ = 8 := by
  have h := upcoming_shift_before_range_check ⟨⟨2024, 6, 9⟩, 0⟩ "alice" [] "15.06.1990"
    ⟨1990, 6, 15⟩ (by decide) (by decide) (by decide) (by decide)
  exact ⟨h.2.2 (by decide), by decide, by decide⟩

/-- C9: when a record's birthday has the same month and day as today and
the current time is strictly past midnight, this year's occurrence (a
midnight datetime) compares strictly less than now, so the code rolls it
to next year; the record is then excluded whenever next year's (possibly
shifted) occurrence is more than 7 days away. -/
theorem same_day_birthday_rolls_to_next_year (now : PyDateTime) (name : String)
    (phones : List String) (s : String) (bd : Date) (hs : s ≠ "")
    (hp : parseDate s = some bd)
    (hm : bd.m = now.date.m) (hd : bd.d = now.date.d) (hsec : now.sec ≠ 0)
    (hv1 : isValidDate now.date.y bd.m bd.d = true)
    (hv2 : isValidDate (now.date.y + 1) bd.m bd.d = true) :
    dtLtNow ⟨now.date.y, bd.m, bd.d⟩ now = true
    ∧ specThisYearOccurrence now bd = ⟨now.date.y + 1, bd.m, bd.d⟩
    ∧ (7 < timedeltaDays (specMondayShift ⟨now.date.y + 1, bd.m, bd.d⟩) now →
        upcomingEntry now ⟨name, phones, some s⟩ = .ok none) := by
  have hdate : (⟨now.date.y, bd.m, bd.d⟩ : Date) = now.date := by
    rw [hm, hd]
  have hlt : dtLtNow ⟨now.date.y, bd.m, bd.d⟩ now = true := by
    rw [hdate]
    simp [dtLtNow, hsec]
  have hocc : specThisYearOccurrence now bd = ⟨now.date.y + 1, bd.m, bd.d⟩ := by
    rw [specThisYearOccurrence, if_pos hlt]
  refine ⟨hlt, hocc, ?_⟩
  intro hgt
  rw [upcomingEntry_eq_spec now name phones s bd hs hp hv1 hv2]
  simp only [specUpcomingEntry, hocc]
  rw [if_neg]
  omega

/-- C9, witness: today = 2024-06-10 one second past midnight and birthday
`10.06.1990`: the same-day occurrence is rolled to 10.06.2025 (a Tuesday,
no shift), 364 days away, so the record is excluded. -/
theorem same_day_birthday_rolls_to_next_year_witness :
    dtLtNow ⟨2024, 6, 10⟩ ⟨⟨2024, 6, 10⟩, 1⟩ = true
    ∧ specThisYearOccurrence ⟨⟨2024, 6, 10⟩, 1⟩ ⟨1990, 6, 10⟩ = ⟨2025, 6, 10⟩
    ∧ upcomingEntry ⟨⟨2024, 6, 10⟩, 1⟩ ⟨"carol", [], some "10.06.1990"⟩ = .ok none := by
  have h := same_day_birthday_rolls_to_next_year ⟨⟨2024, 6, 10⟩, 1⟩ "carol" []
    "10.06.1990" ⟨1990, 6, 10⟩ (by decide) (by decide) (by decide) (by decide)
    (by decide) (by decide) (by decide)
  exact ⟨h.1, h.2.1, h.2.2 (by decide)⟩

/-- C4, counterexample: on a record holding the phone `1111111111` twice,
`edit_phone("1111111111", "2222222222")` succeeds but removes only the
first copy, so the resulting phone list still contains the old number. -/
theorem edit_phone_duplicate_counterexample :
    Record.edit_phone ⟨"bob", ["1111111111", "1111111111"], none⟩
        "1111111111" "2222222222" =
      .ok ⟨"bob", ["1111111111", "2222222222"], none⟩
    ∧ "1111111111" ∈ ["1111111111", "2222222222"] := by
  refine ⟨by decide, by decide⟩

/-- C4, amended: when `old` is present, `edit_phone(old, new)` (for a
valid `new`) appends `new` and removes the first occurrence of `old`, so
the result contains `new` and, when `old` occurred exactly once (and
differs from `new`), no longer contains `old`; with duplicates of `old`
one copy survives.  When `old` is absent it fails with the
`Old number {old} not found` error. -/
theorem edit_phone_removes_first_occurrence (r : Record) (old new : String)
    (hnew : phoneInit new = .ok new) :
    (old ∈ r.phones →
      r.edit_phone old new = .ok ⟨r.name, r.phones.erase old ++ [new], r.birthday⟩)
    ∧ (old ∈ r.phones → r.phones.count old = 1 → old ≠ new →
        new ∈ r.phones.erase old ++ [new] ∧ old ∉ r.phones.erase old ++ [new])
    ∧ (old ∉ r.phones →
        r.edit_phone old new = .error ("Old number " ++ old ++ " not found")) := by
  refine ⟨?_, ?_, ?_⟩
  · intro hmem
    have hfind : (r.find_phone old).isSome := by
      rw [Record.find_phone, List.find?_isSome]
      exact ⟨old, hmem, by simp⟩
    obtain ⟨x, hx⟩ := Option.isSome_iff_exists.mp hfind
    have hmem1 : old ∈ r.phones ++ [new] := List.mem_append_left _ hmem
    have hfind1 : ((r.phones ++ [new]).find? (fun p => p == old)).isSome := by
      rw [List.find?_isSome]
      exact ⟨old, hmem1, by simp⟩
    obtain ⟨x1, hx1⟩ := Option.isSome_iff_exists.mp hfind1
    simp only [Record.edit_phone, hx, Record.add_phone, hnew, Except.map,
      Record.remove_phone, hx1]
    rw [List.erase_append_left _ hmem]
  · intro hmem hcount hne
    refine ⟨by simp, ?_⟩
    rw [List.mem_append]
    rintro (hin | hin)
    · have : (r.phones.erase old).count old = 0 := by
        rw [List.count_erase_self, hcount]
      exact (List.count_eq_zero.mp this) hin
    · simp at hin
      exact hne hin
  · intro hmem
    have hfind : r.find_phone old = none := by
      rw [Record.find_phone, List.find?_eq_none]
      intro x hx
      simp only [beq_iff_eq]
      intro hxx
      exact hmem (hxx ▸ hx)
    simp only [Record.edit_phone, hfind]

/-- C4, witness: a record with a single copy of the old number: editing
replaces it by the new one. -/
theorem edit_phone_removes_first_occurrence_witness :
    Record.edit_phone ⟨"bob", ["1111111111"], none⟩ "1111111111" "2222222222" =
      .ok ⟨"bob", ["2222222222"], none⟩
    ∧ Record.edit_phone ⟨"bob", [], none⟩ "1111111111" "2222222222" =
      .error ("Old number " ++ "1111111111" ++ " not found") := by
  have h := edit_phone_removes_first_occurrence ⟨"bob", ["1111111111"], none⟩
    "1111111111" "2222222222" (by decide)
  have h2 := edit_phone_removes_first_occurrence ⟨"bob", [], none⟩
    "1111111111" "2222222222" (by decide)
  exact ⟨(h.1 (by decide)).trans (by decide), h2.2.2 (by decide)⟩

/-- C10: `add_contact` on a fresh name inserts the new empty record into
the book before validating the phone, so when validation fails the
handler reports the `ValueError` text and the book retains a record under
that name with an empty phone list. -/
theorem add_contact_not_atomic_on_invalid_phone (book : AddressBook)
    (name phone : String) (hfind : find book name = none) (hphone : phone ≠ "")
    (hbad : phoneInit phone = .error "The phone number must be a string of 10 digits") :
    add_contact [name, phone] book =
      ("ValueError: " ++ "The phone number must be a string of 10 digits",
       book ++ [Record.init name])
    ∧ find (book ++ [Record.init name]) name = some (Record.init name)
    ∧ (Record.init name).phones = [] := by
  have hnof : ∀ x ∈ book, ¬(x.name == name) = true := by
    rw [find] at hfind
    exact fun x hx => by simpa using List.find?_eq_none.mp hfind x hx
  have hany : book.any (fun x => x.name == (Record.init name).name) = false := by
    rw [List.any_eq_false]
    exact hnof
  refine ⟨?_, ?_, rfl⟩
  · simp only [add_contact, hfind, Option.isSome_none, Bool.false_eq_true, if_false,
      add_record, hany, if_neg hphone, hbad]
  · rw [find, List.find?_append]
    rw [find] at hfind
    rw [hfind]
    simp [Record.init]

/-- C10, witness: adding `alice` with the invalid phone `123` to the
empty book reports the phone error yet leaves `alice` in the book with no
phones. -/
theorem add_contact_not_atomic_on_invalid_phone_witness :
    add_contact ["alice", "123"] [] =
      ("ValueError: " ++ "The phone number must be a string of 10 digits",
       [] ++ [Record.init "alice"])
    ∧ find ([] ++ [Record.init "alice"]) "alice" = some (Record.init "alice")
    ∧ (Record.init "alice").phones = [] :=
  add_contact_not_atomic_on_invalid_phone [] "alice" "123" rfl (by decide) (by decide)

/-! ### Persistence round-trip lemmas -/

/-- Phone lists load back exactly. -/
lemma loadPhones_map_str (ps : List String) (ts : List Tok) :
    loadPhones ps.length (ps.map Tok.str ++ ts) = some (ps, ts) := by
  induction ps with
  | nil => rfl
  | cons s ps ih => simp [loadPhones, ih]

/-- One serialized record loads back exactly. -/
lemma loadRecord_dump (r : Record) (ts : List Tok) :
    loadRecord (dumpRecord r ++ ts) = some (r, ts) := by
  obtain ⟨name, phones, bday⟩ := r
  cases bday with
  | none =>
    simp only [dumpRecord, List.cons_append, List.append_assoc, List.singleton_append,
      loadRecord]
    rw [loadPhones_map_str]
    simp
  | some s =>
    simp only [dumpRecord, List.cons_append, List.append_assoc, List.singleton_append,
      loadRecord]
    rw [loadPhones_map_str]
    simp

/-- A serialized record list loads back exactly. -/
lemma loadRecords_dump (rs : List Record) (ts : List Tok) :
    loadRecords rs.length ((rs.map dumpRecord).flatten ++ ts) = some (rs, ts) := by
  induction rs generalizing ts with
  | nil => rfl
  | cons r rs ih =>
    simp only [List.map_cons, List.flatten_cons, List.length_cons, List.append_assoc]
    rw [loadRecords, loadRecord_dump]
    simp [ih]

/-- C8: saving and loading is the identity on the book's contents: every
record comes back with the same name, the same phone list in the same
order, and the same optional birthday. -/
theorem save_load_roundtrip (book : AddressBook) :
    load_data (save_data book) = some book := by
  have h := loadRecords_dump book []
  rw [List.append_nil] at h
  simp only [save_data, load_data, h]

end ContactBook
